import Mathlib

/-!
Verification development for the PD-Buddy-Bro USB Power Delivery sink stack.

The C sources embedded here: `lib/pt/pt-evt.h` (event-word wait helpers),
`pt-queue.h` (bounded SPSC queue), `lib/usbpd/protocol_rx.c`,
`lib/usbpd/protocol_tx.c`, `lib/usbpd/hard_reset.c`, and the sink policy
engine `policy_engine.c`.

Machine integers are modelled as `Nat` (event words: 32-bit, reduced with an
explicit `% 2^32` / 32-bit complement where the C wraps) and `Int` (the
`int8_t` message-ID fields).  Each protothread state routine becomes a pure
function from an explicit context record to `Option (context × next-state)`;
`none` models a blocked wait or a NULL-pointer dereference.  Event arrivals
from peer tasks during a wait are passed as an `arr` bit-set parameter, and
expiry of a `PT_EVT_WAIT_TO` deadline as a Boolean `expired` parameter.

Constants that live in headers not present in the available sources
(`policy_engine.h`, `pd.h`, `protocol_rx.h`, `protocol_tx.h`,
`hard_reset.h`) are modelled from the spec and marked as such below.
-/

/-- 2^32, the modulus of the C `unsigned int` arithmetic used by the event
words and the queue indices. -/
def UINT32 : Nat := 4294967296

/-- `UINT32_MAX`, the all-ones 32-bit word. -/
def UINT32_MAX : Nat := UINT32 - 1

/-- C `*events &= ~mask` on a 32-bit event word: clear the bits of `mask`. -/
def clear32 (events mask : Nat) : Nat := events &&& (UINT32_MAX ^^^ mask)

/-! ### Event bit constants

Modelled from the spec: the numeric bit positions of the per-task event
masks live in headers that are not among the available sources
(`policy_engine.h`, `protocol_rx.h`, `protocol_tx.h`, `hard_reset.h`).
The spec's §6 authoritative enumeration gives the identities and order of the
bits of each task's word; `pdb_pe.h` (available) fixes
`PDB_EVT_PE_GET_SOURCE_CAP = PDB_EVENT_MASK(7)` and
`PDB_EVT_PE_NEW_POWER = PDB_EVENT_MASK(8)`.  We assign the remaining bits of
each word in the spec's enumeration order, starting at bit 0. -/

def PDB_EVT_PE_MSG_RX : Nat := 1
def PDB_EVT_PE_TX_DONE : Nat := 2
def PDB_EVT_PE_TX_ERR : Nat := 4
def PDB_EVT_PE_RESET : Nat := 8
def PDB_EVT_PE_HARD_SENT : Nat := 16
def PDB_EVT_PE_I_OVRTEMP : Nat := 32
def PDB_EVT_PE_PPS_REQUEST : Nat := 64
def PDB_EVT_PE_GET_SOURCE_CAP : Nat := 128
def PDB_EVT_PE_NEW_POWER : Nat := 256

def PDB_EVT_PRLRX_RESET : Nat := 1
def PDB_EVT_PRLRX_I_GCRCSENT : Nat := 2

def PDB_EVT_PRLTX_RESET : Nat := 1
def PDB_EVT_PRLTX_DISCARD : Nat := 2
def PDB_EVT_PRLTX_MSG_TX : Nat := 4
def PDB_EVT_PRLTX_I_TXSENT : Nat := 8
def PDB_EVT_PRLTX_I_RETRYFAIL : Nat := 16
def PDB_EVT_PRLTX_START_AMS : Nat := 32

def PDB_EVT_HARDRST_RESET : Nat := 1
def PDB_EVT_HARDRST_I_HARDRST : Nat := 2
def PDB_EVT_HARDRST_I_HARDSENT : Nat := 4
def PDB_EVT_HARDRST_DONE : Nat := 8

/-- Modelled from the spec: `PD_N_HARD_RESET_COUNT` lives in the missing
`pd.h`; the spec's timing-constant table gives `N_HARD_RESET_COUNT = 2`. -/
def PD_N_HARD_RESET_COUNT : Int := 2

/-- Modelled from the spec: `PD_MAX_EXT_MSG_LEGACY_LEN` lives in the missing
`pd.h`; USB-PD r3.0 fixes the legacy extended-message data size at 26. -/
def PD_MAX_EXT_MSG_LEGACY_LEN : Nat := 26

/-! ### pt-evt.h -/

/-- `pt_evt_getandclear` from `pt-evt.h`:
```
unsigned e = *events & mask; *events &= ~mask; return e;
```
returns `(e, new *events)`. -/
def pt_evt_getandclear (events mask : Nat) : Nat × Nat :=
  (events &&& mask, clear32 events mask)

/-- `PT_EVT_WAIT` from `pt-evt.h`:
```
PT_WAIT_UNTIL(pt, *result = (*events & (mask)));
*events &= ~mask;
```
The wait completes exactly when some requested bit is pending; the result
is the pending requested bit set, and the full mask is cleared from the
event word.  `none` models a wait that has not completed. -/
def pt_evt_wait (events mask : Nat) : Option (Nat × Nat) :=
  if events &&& mask ≠ 0 then some (events &&& mask, clear32 events mask)
  else none

/-- `PT_EVT_WAIT_TO` from `pt-evt.h`:
```
PT_WAIT_UNTIL(pt, *result = (*events & (mask)) || (millis() - _start > timeout));
*events &= ~mask;
```
In C, `||` binds tighter than `=`, so `*result` is assigned the Boolean
value of `(*events & mask) || expired`: the wait completes exactly when
that value is 1, hence the reported result is the *number 1* on every
completion — on deadline expiry as well as when requested bits are
pending.  `expired` is the oracle for `millis() - _start > timeout`. -/
def pt_evt_wait_to (events mask : Nat) (expired : Bool) : Option (Nat × Nat) :=
  if events &&& mask ≠ 0 ∨ expired = true then some (1, clear32 events mask)
  else none

/-! ### pt-queue.h

```
#define pt_queue(T, size) struct { T buf[size]; unsigned int r; unsigned int w; }
```
The buffer is modelled as a `List`, whose length plays the role of the
static array size (`pt_queue_len`); `r` and `w` are the C `unsigned int`
indices, wrapping at 2^32. -/

structure PtQueue (T : Type) where
  buf : List T
  r : Nat
  w : Nat
deriving DecidableEq, Repr

/-- `pt_queue_len`: the static capacity `sizeof(buf)/sizeof(buf[0])`. -/
def pt_queue_len {T : Type} (q : PtQueue T) : Nat := q.buf.length

/-- `pt_queue_cap`: `(q)->w - (q)->r`, C unsigned subtraction. -/
def pt_queue_cap {T : Type} (q : PtQueue T) : Nat := (q.w + UINT32 - q.r) % UINT32

/-- `pt_queue_empty`: `(q)->w == (q)->r`. -/
def pt_queue_empty {T : Type} (q : PtQueue T) : Bool := q.w == q.r

/-- `pt_queue_full`: `pt_queue_cap(q) == pt_queue_len(q)`. -/
def pt_queue_full {T : Type} (q : PtQueue T) : Bool :=
  pt_queue_cap q == pt_queue_len q

/-- `pt_queue_push`:
`(!pt_queue_full(q) && ((q)->buf[(q)->w++ % pt_queue_len(q)] = (el), 1))` —
returns the C expression's value (0 on a full queue, short-circuiting before
any write) together with the updated queue. -/
def pt_queue_push {T : Type} (q : PtQueue T) (el : T) : Bool × PtQueue T :=
  if pt_queue_full q then (false, q)
  else (true, { q with buf := q.buf.set (q.w % pt_queue_len q) el,
                       w := (q.w + 1) % UINT32 })

/-- `pt_queue_pop`:
`(pt_queue_empty(q) ? NULL : &(q)->buf[(q)->r++ % pt_queue_len(q)])` —
returns `none` for the NULL pointer on an empty queue, otherwise the element
pointed to, together with the updated queue. -/
def pt_queue_pop {T : Type} (q : PtQueue T) : Option T × PtQueue T :=
  if pt_queue_empty q then (none, q)
  else (q.buf[q.r % pt_queue_len q]?, { q with r := (q.r + 1) % UINT32 })

/-- Abstraction of a `pt_queue` to the sequence of its stored elements, read
index first: element `i` is the slot that the `(i+1)`-st successive pop
would return. -/
def pt_queue_list {T : Type} (q : PtQueue T) : List (Option T) :=
  (List.range (pt_queue_cap q)).map
    (fun i => q.buf[((q.r + i) % UINT32) % pt_queue_len q]?)

/-! ### PD messages

Modelled from the spec where `pd.h` is missing: a PD message is "a 16-bit
header (message type, number of data objects, spec revision, port data role,
port power role, MessageID) plus up to seven 32-bit data objects"; the stack
is "format-agnostic beyond the header accessors".  The header accessor
macros (`PD_MSGTYPE_GET`, `PD_NUMOBJ_GET`, `PD_MESSAGEID_GET`,
`PD_HDR_SPECREV`, `PD_HDR_EXT`, `PD_DATA_SIZE_GET`, `PD_RDO_OBJPOS_GET`,
and the PDO classification `PD_PDO_TYPE`/`PD_APDO_TYPE`) become record
fields; the data objects are abstracted to the one predicate the code
applies to them (is this entry a PPS APDO?). -/

inductive SpecRev where
  | v1 | v2 | v3
deriving DecidableEq, Repr

/-- Numeric value of the two-bit `PD_HDR_SPECREV` field
(`PD_SPECREV_1_0 = 0`, `PD_SPECREV_2_0 = 1`, `PD_SPECREV_3_0 = 2`). -/
def specRevToNat : SpecRev → Nat
  | .v1 => 0
  | .v2 => 1
  | .v3 => 2

inductive MType where
  | goodcrc | gotoMin | accept | getSourceCap | getSinkCap | drSwap | prSwap
  | vconnSwap | wait | softReset | reject | ping | psRdy | notSupported
  | srcCap | request | snkCap | vendor | other
deriving DecidableEq, Repr

structure Msg where
  msgtype : MType := .other
  numobj : Nat := 0
  messageid : Nat := 0
  specrev : SpecRev := .v2
  ext : Bool := false
  dataSize : Nat := 0
  objs : List Bool := []
  rdoObjpos : Nat := 0
deriving DecidableEq, Repr

/-- A control message built as `hdr_template | PD_MSGTYPE_x | PD_NUMOBJ(0)`. -/
def mkCtlMsg (rev : SpecRev) (t : MType) : Msg :=
  { msgtype := t, numobj := 0, specrev := rev }

/-! ### Protocol layer RX (`protocol_rx.c`) -/

inductive RxState where
  | WaitPHY | Reset | CheckMessageID | StoreMessageID
deriving DecidableEq, Repr

/-- The slice of `struct pdb_config` that the PRL-RX routines touch:
its own event word `prl.rx_events`, the Policy Engine's `pe.events` and
`pe.mailbox`, PRL-TX's `prl.tx_events`, the MessageID state, and the
message being worked with.  `freed` counts `chPoolFree` calls (messages
returned to the pool). -/
structure RxCtx where
  rx_events : Nat := 0
  pe_events : Nat := 0
  tx_events : Nat := 0
  rx_messageid : Int := -1
  tx_messageidcounter : Int := 0
  rx_message : Option Msg := none
  pe_mailbox : List Msg := []
  freed : Nat := 0
deriving DecidableEq, Repr

/-- `protocol_rx_wait_phy`.  As in the source, the wait is
`PT_EVT_WAIT(pt, &cfg->pe.events, UINT32_MAX, &evt)`: it blocks on — and
clears all 32 bits of — the *Policy Engine's* event word, not
`prl.rx_events`.  `phyMsg` is the message `fusb_read_message` yields. -/
def protocol_rx_wait_phy (c : RxCtx) (phyMsg : Msg) : Option (RxCtx × RxState) :=
  match pt_evt_wait c.pe_events UINT32_MAX with
  | none => none
  | some (evt, ev) =>
    let c := { c with pe_events := ev }
    if evt &&& PDB_EVT_PRLRX_RESET ≠ 0 then some (c, .WaitPHY)
    else if evt &&& PDB_EVT_PRLRX_I_GCRCSENT ≠ 0 then
      let c := { c with rx_message := some phyMsg }
      if phyMsg.msgtype = .softReset ∧ phyMsg.numobj = 0 then some (c, .Reset)
      else some (c, .CheckMessageID)
    else some (c, .WaitPHY)

/-- `protocol_rx_reset` (PRL_Rx_Layer_Reset_for_Receive). -/
def protocol_rx_reset (c : RxCtx) : RxCtx × RxState :=
  let c := { c with tx_messageidcounter := 0, rx_messageid := -1,
                    tx_events := c.tx_events ||| PDB_EVT_PRLTX_RESET }
  let p := pt_evt_getandclear c.rx_events PDB_EVT_PRLRX_RESET
  let c := { c with rx_events := p.2 }
  if p.1 ≠ 0 then ({ c with freed := c.freed + 1, rx_message := none }, .WaitPHY)
  else (c, .CheckMessageID)

/-- `protocol_rx_check_messageid` (PRL_Rx_Check_MessageID).  `none` models
the NULL dereference of `PD_MESSAGEID_GET` when no message is held. -/
def protocol_rx_check_messageid (c : RxCtx) : Option (RxCtx × RxState) :=
  let p := pt_evt_getandclear c.rx_events PDB_EVT_PRLRX_RESET
  let c := { c with rx_events := p.2 }
  if p.1 ≠ 0 then some ({ c with freed := c.freed + 1, rx_message := none }, .WaitPHY)
  else
    match c.rx_message with
    | none => none
    | some m =>
      if (m.messageid : Int) = c.rx_messageid then
        some ({ c with freed := c.freed + 1, rx_message := none }, .WaitPHY)
      else some (c, .StoreMessageID)

/-- `protocol_rx_store_messageid` (PRL_Rx_Store_MessageID). -/
def protocol_rx_store_messageid (c : RxCtx) : Option (RxCtx × RxState) :=
  let c := { c with tx_events := c.tx_events ||| PDB_EVT_PRLTX_DISCARD }
  match c.rx_message with
  | none => none
  | some m =>
    some ({ c with rx_messageid := (m.messageid : Int),
                   pe_mailbox := c.pe_mailbox ++ [m],
                   pe_events := c.pe_events ||| PDB_EVT_PE_MSG_RX }, .WaitPHY)

/-! ### Hard Reset machine (`hard_reset.c`) -/

inductive HrState where
  | ResetLayer | IndicateHardReset | RequestHardReset | WaitPHY
  | HardResetRequested | WaitPE | Complete
deriving DecidableEq, Repr

structure HrCtx where
  hardrst_events : Nat := 0
  rx_events : Nat := 0
  tx_events : Nat := 0
  pe_events : Nat := 0
  rx_messageid : Int := -1
  tx_messageidcounter : Int := 0
deriving DecidableEq, Repr

/-- `hardrst_reset_layer` (PRL_HR_Reset_Layer).  Note the source resets the
stored message IDs with `cfg->prl._rx_messageid = 0` (the value 0, not the
-1 "no stored ID" sentinel that `protocol_rx_reset` uses). -/
def hardrst_reset_layer (c : HrCtx) : Option (HrCtx × HrState) :=
  match pt_evt_wait c.hardrst_events (PDB_EVT_HARDRST_RESET ||| PDB_EVT_HARDRST_I_HARDRST) with
  | none => none
  | some (evt, ev) =>
    let c := { c with hardrst_events := ev, rx_messageid := 0, tx_messageidcounter := 0 }
    let c := { c with rx_events := c.rx_events ||| PDB_EVT_PRLRX_RESET }
    let c := { c with tx_events := c.tx_events ||| PDB_EVT_PRLTX_RESET }
    if evt &&& PDB_EVT_HARDRST_RESET ≠ 0 then some (c, .RequestHardReset)
    else some (c, .IndicateHardReset)

/-- `hardrst_indicate_hard_reset`. -/
def hardrst_indicate_hard_reset (c : HrCtx) : HrCtx × HrState :=
  ({ c with pe_events := c.pe_events ||| PDB_EVT_PE_RESET }, .WaitPE)

/-- `hardrst_wait_phy`: waits for `HARDRST_I_HARDSENT` with timeout
`PD_T_HARD_RESET_COMPLETE`; regardless of outcome signals `PE_RESET`. -/
def hardrst_wait_phy (c : HrCtx) (expired : Bool) : Option (HrCtx × HrState) :=
  match pt_evt_wait_to c.hardrst_events PDB_EVT_HARDRST_I_HARDSENT expired with
  | none => none
  | some (_, ev) =>
    some ({ c with hardrst_events := ev,
                   pe_events := c.pe_events ||| PDB_EVT_PE_RESET }, .HardResetRequested)

/-- `hardrst_hard_reset_requested`. -/
def hardrst_hard_reset_requested (c : HrCtx) : HrCtx × HrState :=
  ({ c with pe_events := c.pe_events ||| PDB_EVT_PE_HARD_SENT }, .WaitPE)

/-! ### Protocol layer TX (`protocol_tx.c`) -/

inductive TxState where
  | PHYReset | WaitMessage | Reset | ConstructMessage | WaitResponse
  | MatchMessageID | TransmissionError | MessageSent | DiscardMessage
deriving DecidableEq, Repr

/-- The slice of `struct pdb_config` the PRL-TX routines touch.  `phy_sent`
records the messages submitted to the PHY by `fusb_send_message`, and
`hdr_specrev` is the `PD_HDR_SPECREV` field of `pe.hdr_template`. -/
structure TxCtx where
  tx_events : Nat := 0
  rx_events : Nat := 0
  pe_events : Nat := 0
  tx_mailbox : List Msg := []
  tx_messageidcounter : Int := 0
  tx_message : Option Msg := none
  hdr_specrev : SpecRev := .v2
  phy_sent : List Msg := []
deriving DecidableEq, Repr

/-- `protocol_tx_phy_reset` (PRL_Tx_PHY_Layer_Reset): reset the PHY; if a
message was pending, signal `PE_TX_ERR` and clear `_tx_message`. -/
def protocol_tx_phy_reset (c : TxCtx) : TxCtx × TxState :=
  let c := match c.tx_message with
    | some _ => { c with pe_events := c.pe_events ||| PDB_EVT_PE_TX_ERR,
                         tx_message := none }
    | none => c
  (c, .WaitMessage)

/-- `protocol_tx_wait_message` (PRL_Tx_Wait_for_Message_Request).  On
`PRLTX_MSG_TX` the source pops `prl.tx_mailbox` and dereferences the result;
`none` models the NULL dereference of an empty mailbox. -/
def protocol_tx_wait_message (c : TxCtx) : Option (TxCtx × TxState) :=
  match pt_evt_wait c.tx_events
      (PDB_EVT_PRLTX_RESET ||| PDB_EVT_PRLTX_DISCARD ||| PDB_EVT_PRLTX_MSG_TX) with
  | none => none
  | some (evt, ev) =>
    let c := { c with tx_events := ev }
    if evt &&& PDB_EVT_PRLTX_RESET ≠ 0 then some (c, .PHYReset)
    else if evt &&& PDB_EVT_PRLTX_DISCARD ≠ 0 then some (c, .DiscardMessage)
    else if evt &&& PDB_EVT_PRLTX_MSG_TX ≠ 0 then
      match c.tx_mailbox with
      | [] => none
      | m :: rest =>
        let c := { c with tx_mailbox := rest, tx_message := some m }
        if m.msgtype = .softReset ∧ m.numobj = 0 then some (c, .Reset)
        else some (c, .ConstructMessage)
    else some (c, .DiscardMessage)

/-- `protocol_tx_reset`: clear `MessageIDCounter`, signal `PRLRX_RESET`. -/
def protocol_tx_reset (c : TxCtx) : TxCtx × TxState :=
  ({ c with tx_messageidcounter := 0,
            rx_events := c.rx_events ||| PDB_EVT_PRLRX_RESET }, .ConstructMessage)

/-- `protocol_tx_construct_message` (PRL_Tx_Construct_Message): honor a
pending `PRLTX_RESET`/`PRLTX_DISCARD`; otherwise stamp
`tx_messageidcounter % 8` into the message header, run the PD 3.0
collision-avoidance gate (the spin on `fusb_get_typec_current` has no
state effect and terminates when the PHY reports SINK_TX_OK), and submit
the message to the PHY.  `none` models the NULL dereference when no
message is held. -/
def protocol_tx_construct_message (c : TxCtx) : Option (TxCtx × TxState) :=
  let p := pt_evt_getandclear c.tx_events (PDB_EVT_PRLTX_RESET ||| PDB_EVT_PRLTX_DISCARD)
  let evt := p.1
  let c := { c with tx_events := p.2 }
  if evt &&& PDB_EVT_PRLTX_RESET ≠ 0 then some (c, .PHYReset)
  else if evt &&& PDB_EVT_PRLTX_DISCARD ≠ 0 then some (c, .DiscardMessage)
  else
    match c.tx_message with
    | none => none
    | some m =>
      let m := { m with messageid := (c.tx_messageidcounter.tmod 8).toNat }
      let c := { c with tx_message := some m }
      let c := if c.hdr_specrev = .v3 then
                 { c with tx_events := clear32 c.tx_events PDB_EVT_PRLTX_START_AMS }
               else c
      some ({ c with phy_sent := c.phy_sent ++ [m] }, .WaitResponse)

/-- `protocol_tx_wait_response` (PRL_Tx_Wait_for_PHY_Response). -/
def protocol_tx_wait_response (c : TxCtx) : Option (TxCtx × TxState) :=
  match pt_evt_wait c.tx_events
      (PDB_EVT_PRLTX_RESET ||| PDB_EVT_PRLTX_DISCARD
        ||| PDB_EVT_PRLTX_I_TXSENT ||| PDB_EVT_PRLTX_I_RETRYFAIL) with
  | none => none
  | some (evt, ev) =>
    let c := { c with tx_events := ev }
    if evt &&& PDB_EVT_PRLTX_RESET ≠ 0 then some (c, .PHYReset)
    else if evt &&& PDB_EVT_PRLTX_DISCARD ≠ 0 then some (c, .DiscardMessage)
    else if evt &&& PDB_EVT_PRLTX_I_TXSENT ≠ 0 then some (c, .MatchMessageID)
    else if evt &&& PDB_EVT_PRLTX_I_RETRYFAIL ≠ 0 then some (c, .TransmissionError)
    else some (c, .DiscardMessage)

/-- `protocol_tx_match_messageid` (PRL_Tx_Match_MessageID): validate the
GoodCRC read back from the PHY. -/
def protocol_tx_match_messageid (c : TxCtx) (goodcrc : Msg) : TxCtx × TxState :=
  if goodcrc.msgtype = .goodcrc ∧ goodcrc.numobj = 0
      ∧ (goodcrc.messageid : Int) = c.tx_messageidcounter then
    (c, .MessageSent)
  else (c, .TransmissionError)

/-- `protocol_tx_transmission_error`. -/
def protocol_tx_transmission_error (c : TxCtx) : TxCtx × TxState :=
  ({ c with tx_messageidcounter := (c.tx_messageidcounter + 1).tmod 8,
            pe_events := c.pe_events ||| PDB_EVT_PE_TX_ERR,
            tx_message := none }, .WaitMessage)

/-- `protocol_tx_message_sent`. -/
def protocol_tx_message_sent (c : TxCtx) : TxCtx × TxState :=
  ({ c with tx_messageidcounter := (c.tx_messageidcounter + 1).tmod 8,
            pe_events := c.pe_events ||| PDB_EVT_PE_TX_DONE,
            tx_message := none }, .WaitMessage)

/-- `protocol_tx_discard_message`: advance the counter exactly when a
message was being worked on (the message itself is cleared later, by
PHYReset). -/
def protocol_tx_discard_message (c : TxCtx) : TxCtx × TxState :=
  match c.tx_message with
  | some _ => ({ c with tx_messageidcounter := (c.tx_messageidcounter + 1).tmod 8 }, .PHYReset)
  | none => (c, .PHYReset)

/-! ### Policy Engine (`policy_engine.c`) -/

inductive PEState where
  | Startup | Discovery | WaitCap | EvalCap | SelectCap | TransitionSink
  | Ready | GetSourceCap | GiveSinkCap | HardReset | TransitionDefault
  | SoftReset | SendSoftReset | SendNotSupported | ChunkReceived
  | NotSupportedReceived | SourceUnresponsive
deriving DecidableEq, Repr

/-- The slice of `struct pdb_config` the PE routines touch: the PE's own
event word and mailbox, the fields of `struct pdb_pe`, plus the peer words
it signals (`prl.tx_events`, `prl.hardrst_events`) and the TX mailbox it
posts to.  `freed` counts `chPoolFree` calls by the PE. -/
structure PeCtx where
  pe_events : Nat := 0
  pe_mailbox : List Msg := []
  tx_events : Nat := 0
  tx_mailbox : List Msg := []
  hardrst_events : Nat := 0
  hdr_specrev : SpecRev := .v1
  message : Option Msg := none
  last_dpm_request : Option Msg := none
  explicit_contract : Bool := false
  min_power : Bool := false
  hard_reset_counter : Int := 0
  pps_index : Nat := 8
  last_pps : Nat := 8
  sink_pps_timer_enabled : Bool := false
  old_tcc_match : Int := -1
  freed : Nat := 0
deriving DecidableEq, Repr

/-- `pe_sink_startup`: clear the explicit-contract flag, invoke
`dpm.pd_start` if provided (no PE-state effect). -/
def pe_sink_startup (c : PeCtx) : PeCtx × PEState :=
  ({ c with explicit_contract := false }, .Discovery)

/-- `pe_sink_discovery`: VBUS is assumed present. -/
def pe_sink_discovery (c : PeCtx) : PeCtx × PEState :=
  (c, .WaitCap)

/-- `pe_sink_wait_cap`: wait (with the `PD_T_TYPEC_SINK_WAIT_CAP` deadline)
for `PE_MSG_RX | PE_I_OVRTEMP | PE_RESET` and dispatch.  `arr` is the set
of event bits peers OR in during the wait; `expired` reports deadline
expiry. -/
def pe_sink_wait_cap (c : PeCtx) (arr : Nat) (expired : Bool) : Option (PeCtx × PEState) :=
  match pt_evt_wait_to (c.pe_events ||| arr)
      (PDB_EVT_PE_MSG_RX ||| PDB_EVT_PE_I_OVRTEMP ||| PDB_EVT_PE_RESET) expired with
  | none => none
  | some (evt, ev) =>
    let c := { c with pe_events := ev }
    if evt = 0 then some (c, .HardReset)
    else if evt &&& PDB_EVT_PE_RESET ≠ 0 then some (c, .TransitionDefault)
    else if evt &&& PDB_EVT_PE_I_OVRTEMP ≠ 0 then some (c, .WaitCap)
    else if evt &&& PDB_EVT_PE_MSG_RX ≠ 0 then
      match c.pe_mailbox with
      | m :: rest =>
        let c := { c with pe_mailbox := rest, message := some m }
        if m.msgtype = .srcCap ∧ m.numobj > 0 then
          let c :=
            if c.hdr_specrev = .v1 then
              if specRevToNat m.specrev ≥ 2 then { c with hdr_specrev := .v3 }
              else { c with hdr_specrev := .v2 }
            else c
          some (c, .EvalCap)
        else if m.msgtype = .softReset ∧ m.numobj = 0 then
          some ({ c with freed := c.freed + 1, message := none }, .SoftReset)
        else
          some ({ c with freed := c.freed + 1 }, .HardReset)
      | [] => some (c, .HardReset)
    else some (c, .HardReset)

/-- The scan in `pe_sink_eval_cap` for the 1-based index of the first PPS
APDO among the first `numobj` data objects (8 if none). -/
def ppsScan (m : Msg) : Nat :=
  match (m.objs.take m.numobj).findIdx? (fun b => b) with
  | some i => i + 1
  | none => 8

/-- `pe_sink_eval_cap`: record the PPS bookkeeping, obtain a request
buffer, ask the DPM what to request (`dpmReq` is what
`dpm.evaluate_capability` writes into `_last_dpm_request`), and drop the
reference to the capabilities message. -/
def pe_sink_eval_cap (c : PeCtx) (dpmReq : Msg) : PeCtx × PEState :=
  let c := match c.message with
    | some m => { c with pps_index := ppsScan m, last_pps := 8 }
    | none => c
  let c := match c.last_dpm_request with
    | none => c
    | some prev =>
      if prev.rdoObjpos ≥ c.pps_index then { c with last_pps := prev.rdoObjpos }
      else { c with last_pps := 8 }
  ({ c with last_dpm_request := some dpmReq, message := none }, .SelectCap)

/-- The response-dispatch block of `pe_sink_select_cap` (the
`chMBFetchTimeout` fetch and the classification of the reply; `req` is the
posted `_last_dpm_request`, whose OBJPOS is compared with `_last_pps` for
the Sink-Standby decision, a DPM call with no PE-state effect). -/
def pe_sink_select_cap_reply (c : PeCtx) (req : Msg) : Option (PeCtx × PEState) :=
  match c.pe_mailbox with
  | m :: rest =>
    let c := { c with pe_mailbox := rest, message := some m }
    if m.msgtype = .accept ∧ m.numobj = 0 then
      some ({ c with min_power := false, freed := c.freed + 1,
                     message := none }, .TransitionSink)
    else if m.msgtype = .softReset ∧ m.numobj = 0 then
      some ({ c with freed := c.freed + 1, message := none }, .SoftReset)
    else if (m.msgtype = .reject ∨ m.msgtype = .wait) ∧ m.numobj = 0 then
      if ¬ c.explicit_contract then
        some ({ c with freed := c.freed + 1, message := none }, .WaitCap)
      else
        some ({ c with min_power := decide (m.msgtype = .wait),
                       freed := c.freed + 1, message := none }, .Ready)
    else
      some ({ c with freed := c.freed + 1, message := none }, .SendSoftReset)
  | [] => some (c, .HardReset)

/-- `pe_sink_select_cap`: post the request, signal `PRLTX_MSG_TX`, wait for
the TX outcome, manage `SinkPPSPeriodicTimer`, then wait (with the
`PD_T_SENDER_RESPONSE` deadline) for the source's reply and dispatch on it.
`arr1`/`arr2` are the bits peers OR in during the two waits; `expired2`
reports expiry of the second wait's deadline.  `none` models a wait that
has not completed, or posting through a NULL `_last_dpm_request`. -/
def pe_sink_select_cap (c : PeCtx) (arr1 arr2 : Nat) (expired2 : Bool) :
    Option (PeCtx × PEState) :=
  match c.last_dpm_request with
  | none => none
  | some req =>
    let c := { c with tx_mailbox := c.tx_mailbox ++ [req],
                      tx_events := c.tx_events ||| PDB_EVT_PRLTX_MSG_TX }
    match pt_evt_wait (c.pe_events ||| arr1)
        (PDB_EVT_PE_TX_DONE ||| PDB_EVT_PE_TX_ERR ||| PDB_EVT_PE_RESET) with
    | none => none
    | some (evt, ev) =>
      let c := { c with pe_events := ev }
      if evt &&& PDB_EVT_PE_RESET ≠ 0 then some (c, .TransitionDefault)
      else if evt &&& PDB_EVT_PE_TX_DONE = 0 then some (c, .HardReset)
      else
        let c := { c with sink_pps_timer_enabled :=
          if c.hdr_specrev = SpecRev.v3 then decide (req.rdoObjpos ≥ c.pps_index)
          else c.sink_pps_timer_enabled }
        match pt_evt_wait_to (c.pe_events ||| arr2)
            (PDB_EVT_PE_MSG_RX ||| PDB_EVT_PE_RESET) expired2 with
        | none => none
        | some (evt2, ev2) =>
          let c := { c with pe_events := ev2 }
          if evt2 &&& PDB_EVT_PE_RESET ≠ 0 then some (c, .TransitionDefault)
          else if evt2 = 0 then some (c, .HardReset)
          else pe_sink_select_cap_reply c req

/-- `pe_sink_transition_sink`: wait (with the `PD_T_PS_TRANSITION`
deadline) for PS_RDY.  On `PE_RESET` the source sets `*res =
PESinkTransitionDefault` *without* a `PT_EXIT`, so execution continues and
every later path overwrites `*res`; the returned next state therefore never
is TransitionDefault. -/
def pe_sink_transition_sink (c : PeCtx) (arr : Nat) (expired : Bool) :
    Option (PeCtx × PEState) :=
  match pt_evt_wait_to (c.pe_events ||| arr)
      (PDB_EVT_PE_MSG_RX ||| PDB_EVT_PE_RESET) expired with
  | none => none
  | some (evt, ev) =>
    let c := { c with pe_events := ev }
    if evt = 0 then some (c, .HardReset)
    else
      match c.pe_mailbox with
      | m :: rest =>
        let c := { c with pe_mailbox := rest, message := some m }
        if m.msgtype = .psRdy ∧ m.numobj = 0 then
          some ({ c with explicit_contract := true, freed := c.freed + 1,
                         message := none }, .Ready)
        else
          some ({ c with freed := c.freed + 1, message := none }, .HardReset)
      | [] => some (c, .HardReset)

/-- The classification of a fetched message in `pe_sink_ready`, in the
source's branch order.  The source assigns the fetched message to
`pe._message` and then, in every branch except Source_Capabilities, frees
it and sets `_message = NULL`; the branches below carry the net field
updates.  `giveback` is the value of
`dpm.giveback_enabled != NULL && dpm.giveback_enabled(cfg)`. -/
def pe_sink_ready_classify (c : PeCtx) (m : Msg) (giveback : Bool) : PeCtx × PEState :=
  if m.msgtype = .vendor ∧ m.numobj > 0 then
    ({ c with freed := c.freed + 1, message := none }, .Ready)
  else if m.msgtype = .ping ∧ m.numobj = 0 then
    ({ c with freed := c.freed + 1, message := none }, .Ready)
  else if m.msgtype = .drSwap ∧ m.numobj = 0 then
    ({ c with freed := c.freed + 1, message := none }, .SendNotSupported)
  else if m.msgtype = .getSourceCap ∧ m.numobj = 0 then
    ({ c with freed := c.freed + 1, message := none }, .SendNotSupported)
  else if m.msgtype = .prSwap ∧ m.numobj = 0 then
    ({ c with freed := c.freed + 1, message := none }, .SendNotSupported)
  else if m.msgtype = .vconnSwap ∧ m.numobj = 0 then
    ({ c with freed := c.freed + 1, message := none }, .SendNotSupported)
  else if m.msgtype = .request ∧ m.numobj > 0 then
    ({ c with freed := c.freed + 1, message := none }, .SendNotSupported)
  else if m.msgtype = .snkCap ∧ m.numobj > 0 then
    ({ c with freed := c.freed + 1, message := none }, .SendNotSupported)
  else if m.msgtype = .gotoMin ∧ m.numobj = 0 then
    if giveback then
      ({ c with min_power := true, freed := c.freed + 1, message := none }, .TransitionSink)
    else
      ({ c with freed := c.freed + 1, message := none }, .SendNotSupported)
  else if m.msgtype = .srcCap ∧ m.numobj > 0 then
    ({ c with message := some m }, .EvalCap)
  else if m.msgtype = .getSinkCap ∧ m.numobj = 0 then
    ({ c with freed := c.freed + 1, message := none }, .GiveSinkCap)
  else if m.msgtype = .softReset ∧ m.numobj = 0 then
    ({ c with freed := c.freed + 1, message := none }, .SoftReset)
  else if c.hdr_specrev = .v3 then
    if m.ext ∧ m.dataSize > PD_MAX_EXT_MSG_LEGACY_LEN then
      ({ c with freed := c.freed + 1, message := none }, .ChunkReceived)
    else if m.msgtype = .notSupported ∧ m.numobj = 0 then
      ({ c with freed := c.freed + 1, message := none }, .NotSupportedReceived)
    else
      ({ c with freed := c.freed + 1, message := none }, .SendSoftReset)
  else
    ({ c with freed := c.freed + 1, message := none }, .SendSoftReset)

/-- `pe_sink_ready`: wait for any PE event — with the `PD_T_SINK_REQUEST`
deadline exactly when `_min_power` is set — and dispatch in the source's
order. -/
def pe_sink_ready (c : PeCtx) (arr : Nat) (expired : Bool) (giveback : Bool) :
    Option (PeCtx × PEState) :=
  let mask := PDB_EVT_PE_MSG_RX ||| PDB_EVT_PE_RESET ||| PDB_EVT_PE_I_OVRTEMP
      ||| PDB_EVT_PE_GET_SOURCE_CAP ||| PDB_EVT_PE_NEW_POWER ||| PDB_EVT_PE_PPS_REQUEST
  let w := if c.min_power then pt_evt_wait_to (c.pe_events ||| arr) mask expired
           else pt_evt_wait (c.pe_events ||| arr) mask
  match w with
  | none => none
  | some (evt, ev) =>
    let c := { c with pe_events := ev }
    if evt &&& PDB_EVT_PE_RESET ≠ 0 then some (c, .TransitionDefault)
    else if evt &&& PDB_EVT_PE_I_OVRTEMP ≠ 0 then some (c, .HardReset)
    else if evt &&& PDB_EVT_PE_GET_SOURCE_CAP ≠ 0 then
      some ({ c with tx_events := c.tx_events ||| PDB_EVT_PRLTX_START_AMS }, .GetSourceCap)
    else if evt &&& PDB_EVT_PE_NEW_POWER ≠ 0 then
      let c := match c.message with
        | some _ => { c with freed := c.freed + 1, message := none }
        | none => c
      some ({ c with tx_events := c.tx_events ||| PDB_EVT_PRLTX_START_AMS }, .EvalCap)
    else if evt &&& PDB_EVT_PE_PPS_REQUEST ≠ 0 then
      some ({ c with tx_events := c.tx_events ||| PDB_EVT_PRLTX_START_AMS }, .SelectCap)
    else if evt = 0 then some (c, .SelectCap)
    else if evt &&& PDB_EVT_PE_MSG_RX ≠ 0 then
      match c.pe_mailbox with
      | m :: rest => some (pe_sink_ready_classify { c with pe_mailbox := rest } m giveback)
      | [] => some (c, .Ready)
    else some (c, .Ready)

/-- `pe_sink_get_source_cap`: build and post a Get_Source_Cap, signal
`PRLTX_MSG_TX`, wait for the TX outcome, free the sent message. -/
def pe_sink_get_source_cap (c : PeCtx) (arr : Nat) : Option (PeCtx × PEState) :=
  let gsc := mkCtlMsg c.hdr_specrev .getSourceCap
  let c := { c with tx_mailbox := c.tx_mailbox ++ [gsc],
                    tx_events := c.tx_events ||| PDB_EVT_PRLTX_MSG_TX }
  match pt_evt_wait (c.pe_events ||| arr)
      (PDB_EVT_PE_TX_DONE ||| PDB_EVT_PE_TX_ERR ||| PDB_EVT_PE_RESET) with
  | none => none
  | some (evt, ev) =>
    let c := { c with pe_events := ev, freed := c.freed + 1 }
    if evt &&& PDB_EVT_PE_RESET ≠ 0 then some (c, .TransitionDefault)
    else if evt &&& PDB_EVT_PE_TX_DONE = 0 then some (c, .HardReset)
    else some (c, .Ready)

/-- `pe_sink_give_sink_cap`: post the capabilities the DPM provides
(`snkCap` is what `dpm.get_sink_capability` writes), wait, free. -/
def pe_sink_give_sink_cap (c : PeCtx) (arr : Nat) (snkCap : Msg) : Option (PeCtx × PEState) :=
  let c := { c with tx_mailbox := c.tx_mailbox ++ [snkCap],
                    tx_events := c.tx_events ||| PDB_EVT_PRLTX_MSG_TX }
  match pt_evt_wait (c.pe_events ||| arr)
      (PDB_EVT_PE_TX_DONE ||| PDB_EVT_PE_TX_ERR ||| PDB_EVT_PE_RESET) with
  | none => none
  | some (evt, ev) =>
    let c := { c with pe_events := ev, freed := c.freed + 1 }
    if evt &&& PDB_EVT_PE_RESET ≠ 0 then some (c, .TransitionDefault)
    else if evt &&& PDB_EVT_PE_TX_DONE = 0 then some (c, .HardReset)
    else some (c, .Ready)

/-- `pe_sink_hard_reset`: past `PD_N_HARD_RESET_COUNT` hard resets the
source is assumed unresponsive; otherwise signal `HARDRST_RESET`, await
`PE_HARD_SENT`, increment `HardResetCounter`. -/
def pe_sink_hard_reset (c : PeCtx) (arr : Nat) : Option (PeCtx × PEState) :=
  if c.hard_reset_counter > PD_N_HARD_RESET_COUNT then some (c, .SourceUnresponsive)
  else
    let c := { c with hardrst_events := c.hardrst_events ||| PDB_EVT_HARDRST_RESET }
    match pt_evt_wait (c.pe_events ||| arr) PDB_EVT_PE_HARD_SENT with
    | none => none
    | some (_, ev) =>
      some ({ c with pe_events := ev,
                     hard_reset_counter := c.hard_reset_counter + 1 }, .TransitionDefault)

/-- `pe_sink_transition_default`: clear the explicit-contract flag, have
the DPM transition to default power, release the Hard Reset task. -/
def pe_sink_transition_default (c : PeCtx) : PeCtx × PEState :=
  ({ c with explicit_contract := false,
            hardrst_events := c.hardrst_events ||| PDB_EVT_HARDRST_DONE }, .Startup)

/-- `pe_sink_soft_reset`: post an Accept, wait for the TX outcome, free. -/
def pe_sink_soft_reset (c : PeCtx) (arr : Nat) : Option (PeCtx × PEState) :=
  let accept := mkCtlMsg c.hdr_specrev .accept
  let c := { c with tx_mailbox := c.tx_mailbox ++ [accept],
                    tx_events := c.tx_events ||| PDB_EVT_PRLTX_MSG_TX }
  match pt_evt_wait (c.pe_events ||| arr)
      (PDB_EVT_PE_TX_DONE ||| PDB_EVT_PE_TX_ERR ||| PDB_EVT_PE_RESET) with
  | none => none
  | some (evt, ev) =>
    let c := { c with pe_events := ev, freed := c.freed + 1 }
    if evt &&& PDB_EVT_PE_RESET ≠ 0 then some (c, .TransitionDefault)
    else if evt &&& PDB_EVT_PE_TX_DONE = 0 then some (c, .HardReset)
    else some (c, .WaitCap)

/-- `pe_sink_send_soft_reset`: post a Soft_Reset, wait for the TX outcome,
then wait (with the `PD_T_SENDER_RESPONSE` deadline) for the reply. -/
def pe_sink_send_soft_reset (c : PeCtx) (arr1 arr2 : Nat) (expired2 : Bool) :
    Option (PeCtx × PEState) :=
  let softrst := mkCtlMsg c.hdr_specrev .softReset
  let c := { c with tx_mailbox := c.tx_mailbox ++ [softrst],
                    tx_events := c.tx_events ||| PDB_EVT_PRLTX_MSG_TX }
  match pt_evt_wait (c.pe_events ||| arr1)
      (PDB_EVT_PE_TX_DONE ||| PDB_EVT_PE_TX_ERR ||| PDB_EVT_PE_RESET) with
  | none => none
  | some (evt, ev) =>
    let c := { c with pe_events := ev, freed := c.freed + 1 }
    if evt &&& PDB_EVT_PE_RESET ≠ 0 then some (c, .TransitionDefault)
    else if evt &&& PDB_EVT_PE_TX_DONE = 0 then some (c, .HardReset)
    else
      match pt_evt_wait_to (c.pe_events ||| arr2)
          (PDB_EVT_PE_MSG_RX ||| PDB_EVT_PE_RESET) expired2 with
      | none => none
      | some (evt2, ev2) =>
        let c := { c with pe_events := ev2 }
        if evt2 &&& PDB_EVT_PE_RESET ≠ 0 then some (c, .TransitionDefault)
        else if evt2 = 0 then some (c, .HardReset)
        else
          match c.pe_mailbox with
          | m :: rest =>
            let c := { c with pe_mailbox := rest, message := some m }
            if m.msgtype = .accept ∧ m.numobj = 0 then
              some ({ c with freed := c.freed + 1, message := none }, .WaitCap)
            else if m.msgtype = .softReset ∧ m.numobj = 0 then
              some ({ c with freed := c.freed + 1, message := none }, .SoftReset)
            else
              some ({ c with freed := c.freed + 1, message := none }, .HardReset)
          | [] => some (c, .HardReset)

/-- `pe_sink_send_not_supported`: post Reject (PD 2.0) or Not_Supported
(PD 3.0) — with a PD 1.0 template the allocated header is left
uninitialized, modelled by `.other` — wait, free; a failed transmission
falls back to SendSoftReset. -/
def pe_sink_send_not_supported (c : PeCtx) (arr : Nat) : Option (PeCtx × PEState) :=
  let msg := match c.hdr_specrev with
    | .v2 => mkCtlMsg c.hdr_specrev .reject
    | .v3 => mkCtlMsg c.hdr_specrev .notSupported
    | .v1 => mkCtlMsg c.hdr_specrev .other
  let c := { c with tx_mailbox := c.tx_mailbox ++ [msg],
                    tx_events := c.tx_events ||| PDB_EVT_PRLTX_MSG_TX }
  match pt_evt_wait (c.pe_events ||| arr)
      (PDB_EVT_PE_TX_DONE ||| PDB_EVT_PE_TX_ERR ||| PDB_EVT_PE_RESET) with
  | none => none
  | some (evt, ev) =>
    let c := { c with pe_events := ev, freed := c.freed + 1 }
    if evt &&& PDB_EVT_PE_RESET ≠ 0 then some (c, .TransitionDefault)
    else if evt &&& PDB_EVT_PE_TX_DONE = 0 then some (c, .SendSoftReset)
    else some (c, .Ready)

/-- `pe_sink_chunk_received`: wait out `PD_T_CHUNKING_NOT_SUPPORTED`.  The
`PE_RESET` branch assigns `*res = PESinkTransitionDefault` without a
`PT_EXIT`, and the following unconditional `*res = PESinkSendNotSupported`
overwrites it, so the next state is always SendNotSupported. -/
def pe_sink_chunk_received (c : PeCtx) (arr : Nat) (expired : Bool) :
    Option (PeCtx × PEState) :=
  match pt_evt_wait_to (c.pe_events ||| arr) PDB_EVT_PE_RESET expired with
  | none => none
  | some (_, ev) => some ({ c with pe_events := ev }, .SendNotSupported)

/-- `pe_sink_not_supported_received`: notify the DPM (no state effect). -/
def pe_sink_not_supported_received (c : PeCtx) : PeCtx × PEState :=
  (c, .Ready)

/-- `pe_sink_source_unresponsive`: when the DPM can evaluate the Type-C
Current advertisement (`hasDpm`), compare the reading `tcc` with the
previous one (equal consecutive readings trigger `dpm.transition_typec`,
no PE-state effect) and remember it. -/
def pe_sink_source_unresponsive (c : PeCtx) (hasDpm : Bool) (tcc : Int) :
    PeCtx × PEState :=
  let c := if hasDpm then { c with old_tcc_match := tcc } else c
  (c, .SourceUnresponsive)

/-- One step of the Policy Engine thread's dispatch loop under the
"silent source" environment of spec §8 invariant 6: the PHY delivers no
messages and no interrupts, so every `PD_T_TYPEC_SINK_WAIT_CAP` deadline
expires with nothing in `pe.mailbox`, and the only peer activity is the
Hard Reset machine's response to `HARDRST_RESET` (it ORs `PE_RESET` —
after its `PD_T_HARD_RESET_COMPLETE` wait expires — and then
`PE_HARD_SENT` into `pe.events`, exactly as `hard_reset.c` does). -/
def pe_silent_step (p : PeCtx × PEState) : Option (PeCtx × PEState) :=
  match p.2 with
  | .Startup => some (pe_sink_startup p.1)
  | .Discovery => some (pe_sink_discovery p.1)
  | .WaitCap => pe_sink_wait_cap p.1 0 true
  | .HardReset => pe_sink_hard_reset p.1 (PDB_EVT_PE_RESET ||| PDB_EVT_PE_HARD_SENT)
  | .TransitionDefault => some (pe_sink_transition_default p.1)
  | _ => none

/-- Iterate `pe_silent_step` `n` times. -/
def pe_silent_run : Nat → PeCtx × PEState → Option (PeCtx × PEState)
  | 0, p => some p
  | n + 1, p =>
    match pe_silent_step p with
    | none => none
    | some q => pe_silent_run n q

/-! ### Claim theorems -/

/-- C1: refutation by evaluation.  The claim states that a
`wait_event_timeout` (`PT_EVT_WAIT_TO`) reports a zero event mask when the
deadline expires with no requested bit pending, and otherwise exactly the
set of pending requested bits consumed.  The source's
`*result = (*events & (mask)) || (millis() - _start > timeout)` assigns the
Boolean value of the disjunction (C binds `||` before `=`): on expiry with
`*events = 0` the reported mask is 1, not 0, and with `PDB_EVT_PE_RESET`
pending the reported mask is 1, not the pending set. -/
theorem c1_wait_to_reports_boolean_one :
    pt_evt_wait_to 0 (PDB_EVT_PE_MSG_RX ||| PDB_EVT_PE_I_OVRTEMP ||| PDB_EVT_PE_RESET) true
        = some (1, 0)
    ∧ (1 : Nat) ≠ 0
    ∧ pt_evt_wait_to PDB_EVT_PE_RESET (PDB_EVT_PE_MSG_RX ||| PDB_EVT_PE_RESET) false
        = some (1, 0)
    ∧ (1 : Nat) ≠ PDB_EVT_PE_RESET := by
  decide

/-- The Hard Reset machine's ResetLayer input for C2: a hard reset locally
initiated by the PE (`HARDRST_RESET` pending) with a stored receive
MessageID of 5. -/
def c2_pre : HrCtx := { hardrst_events := PDB_EVT_HARDRST_RESET, rx_messageid := 5 }

/-- C2: refutation by evaluation.  After `hardrst_reset_layer` executes,
`_tx_messageidcounter` is 0 as claimed, but `_rx_messageid` is 0 — a valid
MessageID — not the −1 "no stored ID" sentinel the claim (and
`protocol_rx_reset`) use. -/
theorem c2_reset_layer_stores_zero_rx_messageid :
    (hardrst_reset_layer c2_pre).map
        (fun p => (p.1.rx_messageid, p.1.tx_messageidcounter, p.2))
      = some (0, 0, HrState.RequestHardReset)
    ∧ (hardrst_reset_layer c2_pre).map (fun p => p.1.rx_messageid) ≠ some (-1) := by
  decide

/-- The PRL-RX WaitPHY input for C3: PRL-RX's own event word holds
`PRLRX_I_GCRCSENT`, while the Policy Engine's word holds `PE_TX_DONE`. -/
def c3_pre : RxCtx := { rx_events := PDB_EVT_PRLRX_I_GCRCSENT, pe_events := PDB_EVT_PE_TX_DONE }

/-- A Source_Capabilities frame as read back from the PHY, for C3. -/
def c3_msg : Msg := { msgtype := .srcCap, numobj := 1 }

/-- C3: refutation by evaluation.  `protocol_rx_wait_phy` waits on
`cfg->pe.events` with mask `UINT32_MAX`: it consumes (zeroes) the Policy
Engine's entire event word while leaving `prl.rx_events` untouched — here
the PE's `PE_TX_DONE` bit is even misread as `PRLRX_I_GCRCSENT` — and with
`pe.events == 0` it stays blocked although its own `PRLRX_RESET` bit is
pending. -/
theorem c3_wait_phy_consumes_pe_events :
    ((protocol_rx_wait_phy c3_pre c3_msg).map
        (fun p => (p.1.pe_events, p.1.rx_events, p.2))
      = some (0, PDB_EVT_PRLRX_I_GCRCSENT, RxState.CheckMessageID))
    ∧ PDB_EVT_PE_TX_DONE ≠ 0
    ∧ protocol_rx_wait_phy ({ rx_events := PDB_EVT_PRLRX_RESET } : RxCtx) c3_msg = none := by
  decide

/-- The Ready-state input for C4: `_min_power` set, no event bit pending,
empty PE mailbox, and the `PD_T_SINK_REQUEST` deadline expired. -/
def c4_pre : PeCtx := { min_power := true }

/-- C4: refutation by evaluation.  When the min-power wait in Ready ends by
timeout with no event received, the claim requires a transition to
SelectCap.  The wait reports the Boolean 1 instead of 0, so the
`evt == 0` branch is dead: the reported value is read as `PE_MSG_RX`, the
mailbox fetch fails, and the PE re-enters Ready. -/
theorem c4_ready_min_power_timeout_stays_ready :
    ((pe_sink_ready c4_pre 0 true false).map (fun p => p.2) = some PEState.Ready)
    ∧ ((pe_sink_ready c4_pre 0 true false).map (fun p => p.2) ≠ some PEState.SelectCap) := by
  decide

/-- C5: a message whose MessageID equals the stored `_rx_messageid` is
freed back to the pool by CheckMessageID, the machine returns to WaitPHY,
and nothing is posted toward the Policy Engine: `pe.mailbox` and
`pe.events` are unchanged. -/
theorem c5_duplicate_messageid_dropped (c : RxCtx) (m : Msg)
    (hm : c.rx_message = some m) (hid : (m.messageid : Int) = c.rx_messageid) :
    ((protocol_rx_check_messageid c).map (fun p => p.2) = some RxState.WaitPHY)
    ∧ ((protocol_rx_check_messageid c).map (fun p => p.1.freed) = some (c.freed + 1))
    ∧ ((protocol_rx_check_messageid c).map (fun p => p.1.rx_message) = some none)
    ∧ ((protocol_rx_check_messageid c).map (fun p => p.1.pe_mailbox) = some c.pe_mailbox)
    ∧ ((protocol_rx_check_messageid c).map (fun p => p.1.pe_events) = some c.pe_events) := by
  unfold protocol_rx_check_messageid pt_evt_getandclear
  by_cases h : c.rx_events &&& PDB_EVT_PRLRX_RESET = 0
  · simp [h, hm, hid]
  · simp [h, hm, hid]

/-- The CheckMessageID input for C5's witness: stored ID 3, and a received
Ping message carrying the same MessageID 3. -/
def c5_pre : RxCtx :=
  { rx_message := some { msgtype := .ping, messageid := 3 }, rx_messageid := 3 }

/-- C5, witnessed at `c5_pre`. -/
theorem c5_duplicate_messageid_dropped_witness :
    ((protocol_rx_check_messageid c5_pre).map (fun p => p.2) = some RxState.WaitPHY)
    ∧ ((protocol_rx_check_messageid c5_pre).map (fun p => p.1.freed) = some (c5_pre.freed + 1))
    ∧ ((protocol_rx_check_messageid c5_pre).map (fun p => p.1.rx_message) = some none)
    ∧ ((protocol_rx_check_messageid c5_pre).map (fun p => p.1.pe_mailbox) = some c5_pre.pe_mailbox)
    ∧ ((protocol_rx_check_messageid c5_pre).map (fun p => p.1.pe_events) = some c5_pre.pe_events) :=
  c5_duplicate_messageid_dropped c5_pre { msgtype := .ping, messageid := 3 } rfl (by decide)

/-- Bounds of the C `(x + 1) % 8` counter step for a non-negative `x`. -/
theorem tmod8_bounds (x : Int) (hx : 0 ≤ x) :
    0 ≤ (x + 1).tmod 8 ∧ (x + 1).tmod 8 < 8 := by
  rw [Int.tmod_eq_emod (by omega) (by norm_num)]
  exact ⟨Int.emod_nonneg _ (by norm_num), Int.emod_lt_of_pos _ (by norm_num)⟩

/-- C6: `_tx_messageidcounter` stays in 0..7 and is advanced by exactly one
modulo 8 in MessageSent, in TransmissionError, and in DiscardMessage exactly
when a message was in progress; no other PRL-TX state advances it
(WaitMessage, ConstructMessage, WaitResponse, MatchMessageID and PHYReset
leave it unchanged, and the Reset state sets it to 0). -/
theorem c6_tx_messageidcounter_cycle (c : TxCtx) (g : Msg)
    (h0 : 0 ≤ c.tx_messageidcounter) (h8 : c.tx_messageidcounter < 8) :
    ((protocol_tx_message_sent c).1.tx_messageidcounter = (c.tx_messageidcounter + 1).tmod 8
      ∧ 0 ≤ (protocol_tx_message_sent c).1.tx_messageidcounter
      ∧ (protocol_tx_message_sent c).1.tx_messageidcounter < 8)
    ∧ (protocol_tx_transmission_error c).1.tx_messageidcounter
        = (c.tx_messageidcounter + 1).tmod 8
    ∧ (c.tx_message ≠ none →
        (protocol_tx_discard_message c).1.tx_messageidcounter
          = (c.tx_messageidcounter + 1).tmod 8)
    ∧ (c.tx_message = none →
        (protocol_tx_discard_message c).1.tx_messageidcounter = c.tx_messageidcounter)
    ∧ (0 ≤ (protocol_tx_discard_message c).1.tx_messageidcounter
        ∧ (protocol_tx_discard_message c).1.tx_messageidcounter < 8)
    ∧ (protocol_tx_reset c).1.tx_messageidcounter = 0
    ∧ (protocol_tx_phy_reset c).1.tx_messageidcounter = c.tx_messageidcounter
    ∧ (protocol_tx_match_messageid c g).1.tx_messageidcounter = c.tx_messageidcounter
    ∧ (∀ p, protocol_tx_wait_message c = some p →
        p.1.tx_messageidcounter = c.tx_messageidcounter)
    ∧ (∀ p, protocol_tx_construct_message c = some p →
        p.1.tx_messageidcounter = c.tx_messageidcounter)
    ∧ (∀ p, protocol_tx_wait_response c = some p →
        p.1.tx_messageidcounter = c.tx_messageidcounter) := by
  have hb := tmod8_bounds c.tx_messageidcounter h0
  refine ⟨⟨rfl, hb.1, hb.2⟩, rfl, ?_, ?_, ?_, rfl, ?_, ?_, ?_, ?_, ?_⟩
  · intro hm
    unfold protocol_tx_discard_message
    cases hx : c.tx_message with
    | none => exact absurd hx hm
    | some m => rfl
  · intro hm
    unfold protocol_tx_discard_message
    rw [hm]
  · unfold protocol_tx_discard_message
    cases hx : c.tx_message with
    | none => exact ⟨h0, h8⟩
    | some m => exact ⟨hb.1, hb.2⟩
  · unfold protocol_tx_phy_reset
    cases hx : c.tx_message <;> rfl
  · unfold protocol_tx_match_messageid
    split <;> rfl
  · intro p hp
    simp only [protocol_tx_wait_message] at hp
    repeat' split at hp
    all_goals try injection hp with hp
    all_goals try cases hp
    all_goals rfl
  · intro p hp
    simp only [protocol_tx_construct_message] at hp
    repeat' split at hp
    all_goals try injection hp with hp
    all_goals try cases hp
    all_goals rfl
  · intro p hp
    simp only [protocol_tx_wait_response] at hp
    repeat' split at hp
    all_goals try injection hp with hp
    all_goals try cases hp
    all_goals rfl

/-- The PRL-TX context for C6's witness: counter 7, a message in flight. -/
def c6_pre : TxCtx := { tx_messageidcounter := 7, tx_message := some {} }

/-- C6, witnessed at `c6_pre`: MessageSent advances 7 to `(7+1) % 8 = 0`. -/
theorem c6_tx_messageidcounter_cycle_witness :
    (protocol_tx_message_sent c6_pre).1.tx_messageidcounter
        = (c6_pre.tx_messageidcounter + 1).tmod 8
    ∧ 0 ≤ (protocol_tx_message_sent c6_pre).1.tx_messageidcounter
    ∧ (protocol_tx_message_sent c6_pre).1.tx_messageidcounter < 8 :=
  (c6_tx_messageidcounter_cycle c6_pre {} (by decide) (by decide)).1

/-! #### C7: the Request/Accept/PS_RDY round trip -/

/-- The DPM-chosen Request for the C7 round trip (OBJPOS 2). -/
def c7_request : Msg := { msgtype := .request, numobj := 1, rdoObjpos := 2 }

/-- Start of the C7 round trip: the PE is about to run SelectCap; the
source will answer with Accept and then PS_RDY (queued by PRL-RX, which
sets `PE_MSG_RX` during the respective waits). -/
def c7_start : PeCtx :=
  { hdr_specrev := .v2, last_dpm_request := some c7_request,
    pe_mailbox := [({ msgtype := .accept } : Msg), ({ msgtype := .psRdy } : Msg)] }

/-- The round trip after SelectCap: PRL-TX reports `PE_TX_DONE` during the
first wait, PRL-RX reports `PE_MSG_RX` (Accept) during the second. -/
def c7_afterSelect : Option (PeCtx × PEState) :=
  pe_sink_select_cap c7_start PDB_EVT_PE_TX_DONE PDB_EVT_PE_MSG_RX false

/-- The round trip after TransitionSink: PRL-RX reports `PE_MSG_RX`
(PS_RDY) during its wait. -/
def c7_afterTransition : Option (PeCtx × PEState) :=
  match c7_afterSelect with
  | some p => pe_sink_transition_sink p.1 PDB_EVT_PE_MSG_RX false
  | none => none

theorem c7aux_startup (c : PeCtx)
    (ht : (pe_sink_startup c).1.explicit_contract = true) :
    c.explicit_contract = true := by
  simp [pe_sink_startup] at ht

theorem c7aux_discovery (c : PeCtx)
    (ht : (pe_sink_discovery c).1.explicit_contract = true) :
    c.explicit_contract = true := ht

theorem c7aux_wait_cap (c : PeCtx) (arr : Nat) (e : Bool) (p : PeCtx × PEState)
    (h : pe_sink_wait_cap c arr e = some p) (ht : p.1.explicit_contract = true) :
    c.explicit_contract = true := by
  simp only [pe_sink_wait_cap] at h
  repeat' split at h
  all_goals try injection h with h
  all_goals try cases h
  all_goals simp_all

theorem c7aux_eval_cap (c : PeCtx) (d : Msg)
    (ht : (pe_sink_eval_cap c d).1.explicit_contract = true) :
    c.explicit_contract = true := by
  simp only [pe_sink_eval_cap] at ht
  repeat' split at ht
  all_goals simp_all

theorem c7aux_select_cap_reply (c : PeCtx) (req : Msg) (p : PeCtx × PEState)
    (h : pe_sink_select_cap_reply c req = some p) (ht : p.1.explicit_contract = true) :
    c.explicit_contract = true := by
  simp only [pe_sink_select_cap_reply] at h
  repeat' split at h
  all_goals try injection h with h
  all_goals try cases h
  all_goals simp_all

set_option maxHeartbeats 1000000 in
theorem c7aux_select_cap (c : PeCtx) (a1 a2 : Nat) (e : Bool) (p : PeCtx × PEState)
    (h : pe_sink_select_cap c a1 a2 e = some p) (ht : p.1.explicit_contract = true) :
    c.explicit_contract = true := by
  simp only [pe_sink_select_cap] at h
  repeat' split at h
  all_goals try injection h with h
  all_goals try cases h
  all_goals first
    | (have hh := c7aux_select_cap_reply _ _ _ h ht; exact hh)
    | simp_all

theorem c7aux_ready_classify (c : PeCtx) (m : Msg) (gb : Bool) (p : PeCtx × PEState)
    (h : pe_sink_ready_classify c m gb = p) (ht : p.1.explicit_contract = true) :
    c.explicit_contract = true := by
  delta pe_sink_ready_classify at h
  by_cases h1 : m.msgtype = MType.vendor ∧ m.numobj > 0
  · rw [if_pos h1] at h; cases h; exact ht
  rw [if_neg h1] at h
  by_cases h2 : m.msgtype = MType.ping ∧ m.numobj = 0
  · rw [if_pos h2] at h; cases h; exact ht
  rw [if_neg h2] at h
  by_cases h3 : m.msgtype = MType.drSwap ∧ m.numobj = 0
  · rw [if_pos h3] at h; cases h; exact ht
  rw [if_neg h3] at h
  by_cases h4 : m.msgtype = MType.getSourceCap ∧ m.numobj = 0
  · rw [if_pos h4] at h; cases h; exact ht
  rw [if_neg h4] at h
  by_cases h5 : m.msgtype = MType.prSwap ∧ m.numobj = 0
  · rw [if_pos h5] at h; cases h; exact ht
  rw [if_neg h5] at h
  by_cases h6 : m.msgtype = MType.vconnSwap ∧ m.numobj = 0
  · rw [if_pos h6] at h; cases h; exact ht
  rw [if_neg h6] at h
  by_cases h7 : m.msgtype = MType.request ∧ m.numobj > 0
  · rw [if_pos h7] at h; cases h; exact ht
  rw [if_neg h7] at h
  by_cases h8 : m.msgtype = MType.snkCap ∧ m.numobj > 0
  · rw [if_pos h8] at h; cases h; exact ht
  rw [if_neg h8] at h
  by_cases h9 : m.msgtype = MType.gotoMin ∧ m.numobj = 0
  · rw [if_pos h9] at h
    by_cases hg : gb = true
    · rw [if_pos hg] at h; cases h; exact ht
    · rw [if_neg hg] at h; cases h; exact ht
  rw [if_neg h9] at h
  by_cases h10 : m.msgtype = MType.srcCap ∧ m.numobj > 0
  · rw [if_pos h10] at h; cases h; exact ht
  rw [if_neg h10] at h
  by_cases h11 : m.msgtype = MType.getSinkCap ∧ m.numobj = 0
  · rw [if_pos h11] at h; cases h; exact ht
  rw [if_neg h11] at h
  by_cases h12 : m.msgtype = MType.softReset ∧ m.numobj = 0
  · rw [if_pos h12] at h; cases h; exact ht
  rw [if_neg h12] at h
  by_cases h13 : c.hdr_specrev = SpecRev.v3
  · rw [if_pos h13] at h
    by_cases h14 : m.ext = true ∧ m.dataSize > PD_MAX_EXT_MSG_LEGACY_LEN
    · rw [if_pos h14] at h; cases h; exact ht
    rw [if_neg h14] at h
    by_cases h15 : m.msgtype = MType.notSupported ∧ m.numobj = 0
    · rw [if_pos h15] at h; cases h; exact ht
    · rw [if_neg h15] at h; cases h; exact ht
  · rw [if_neg h13] at h; cases h; exact ht

theorem c7aux_ready (c : PeCtx) (arr : Nat) (e gb : Bool) (p : PeCtx × PEState)
    (h : pe_sink_ready c arr e gb = some p) (ht : p.1.explicit_contract = true) :
    c.explicit_contract = true := by
  simp only [pe_sink_ready] at h
  repeat' split at h
  all_goals try injection h with h
  all_goals try cases h
  all_goals first
    | (have hh := c7aux_ready_classify _ _ _ _ rfl ht; exact hh)
    | simp_all

theorem c7aux_get_source_cap (c : PeCtx) (arr : Nat) (p : PeCtx × PEState)
    (h : pe_sink_get_source_cap c arr = some p) (ht : p.1.explicit_contract = true) :
    c.explicit_contract = true := by
  simp only [pe_sink_get_source_cap] at h
  repeat' split at h
  all_goals try injection h with h
  all_goals try cases h
  all_goals simp_all

theorem c7aux_give_sink_cap (c : PeCtx) (arr : Nat) (m : Msg) (p : PeCtx × PEState)
    (h : pe_sink_give_sink_cap c arr m = some p) (ht : p.1.explicit_contract = true) :
    c.explicit_contract = true := by
  simp only [pe_sink_give_sink_cap] at h
  repeat' split at h
  all_goals try injection h with h
  all_goals try cases h
  all_goals simp_all

theorem c7aux_hard_reset (c : PeCtx) (arr : Nat) (p : PeCtx × PEState)
    (h : pe_sink_hard_reset c arr = some p) (ht : p.1.explicit_contract = true) :
    c.explicit_contract = true := by
  simp only [pe_sink_hard_reset] at h
  repeat' split at h
  all_goals try injection h with h
  all_goals try cases h
  all_goals simp_all

theorem c7aux_transition_default (c : PeCtx)
    (ht : (pe_sink_transition_default c).1.explicit_contract = true) :
    c.explicit_contract = true := by
  simp [pe_sink_transition_default] at ht

theorem c7aux_soft_reset (c : PeCtx) (arr : Nat) (p : PeCtx × PEState)
    (h : pe_sink_soft_reset c arr = some p) (ht : p.1.explicit_contract = true) :
    c.explicit_contract = true := by
  simp only [pe_sink_soft_reset] at h
  repeat' split at h
  all_goals try injection h with h
  all_goals try cases h
  all_goals simp_all

theorem c7aux_send_soft_reset (c : PeCtx) (a1 a2 : Nat) (e : Bool) (p : PeCtx × PEState)
    (h : pe_sink_send_soft_reset c a1 a2 e = some p) (ht : p.1.explicit_contract = true) :
    c.explicit_contract = true := by
  simp only [pe_sink_send_soft_reset] at h
  repeat' split at h
  all_goals try injection h with h
  all_goals try cases h
  all_goals simp_all

theorem c7aux_send_not_supported (c : PeCtx) (arr : Nat) (p : PeCtx × PEState)
    (h : pe_sink_send_not_supported c arr = some p) (ht : p.1.explicit_contract = true) :
    c.explicit_contract = true := by
  simp only [pe_sink_send_not_supported] at h
  repeat' split at h
  all_goals try injection h with h
  all_goals try cases h
  all_goals simp_all

theorem c7aux_chunk_received (c : PeCtx) (arr : Nat) (e : Bool) (p : PeCtx × PEState)
    (h : pe_sink_chunk_received c arr e = some p) (ht : p.1.explicit_contract = true) :
    c.explicit_contract = true := by
  simp only [pe_sink_chunk_received] at h
  repeat' split at h
  all_goals try injection h with h
  all_goals try cases h
  all_goals simp_all

theorem c7aux_not_supported_received (c : PeCtx)
    (ht : (pe_sink_not_supported_received c).1.explicit_contract = true) :
    c.explicit_contract = true := ht

theorem c7aux_source_unresponsive (c : PeCtx) (b : Bool) (t : Int)
    (ht : (pe_sink_source_unresponsive c b t).1.explicit_contract = true) :
    c.explicit_contract = true := by
  simp only [pe_sink_source_unresponsive] at ht
  repeat' split at ht
  all_goals simp_all

theorem c7aux_transition_sink (c : PeCtx) (arr : Nat) (e : Bool) (p : PeCtx × PEState)
    (h : pe_sink_transition_sink c arr e = some p)
    (hc : c.explicit_contract = false) (ht : p.1.explicit_contract = true) :
    c.pe_mailbox.head?.map (fun m => (m.msgtype, m.numobj)) = some (MType.psRdy, 0) := by
  simp only [pe_sink_transition_sink] at h
  repeat' split at h
  all_goals try injection h with h
  all_goals try cases h
  all_goals simp_all

/-- C7: the round trip "post Request, get `PE_TX_DONE`, receive Accept/0,
receive PS_RDY/0" passes through SelectCap → TransitionSink → Ready
exactly once (the two-step run below visits each of the three states once,
in order), and `_explicit_contract` becomes true iff a PS_RDY arrives: it
is true after the PS_RDY and still false after the Accept, and — across
every PE state routine — a run of a routine can turn the flag from false
to true only in `pe_sink_transition_sink`, and there only when the fetched
message (the head of `pe.mailbox`) is PS_RDY with zero data objects. -/
theorem c7_request_accept_psrdy_roundtrip :
    (c7_afterSelect.map (fun p => (p.2, p.1.explicit_contract))
        = some (PEState.TransitionSink, false)
      ∧ c7_afterTransition.map (fun p => (p.2, p.1.explicit_contract))
        = some (PEState.Ready, true))
    ∧ (∀ c arr e p, pe_sink_transition_sink c arr e = some p →
        c.explicit_contract = false → p.1.explicit_contract = true →
        c.pe_mailbox.head?.map (fun m => (m.msgtype, m.numobj)) = some (MType.psRdy, 0))
    ∧ (∀ c, (pe_sink_startup c).1.explicit_contract = true → c.explicit_contract = true)
    ∧ (∀ c, (pe_sink_discovery c).1.explicit_contract = true → c.explicit_contract = true)
    ∧ (∀ c arr e p, pe_sink_wait_cap c arr e = some p →
        p.1.explicit_contract = true → c.explicit_contract = true)
    ∧ (∀ c d, (pe_sink_eval_cap c d).1.explicit_contract = true → c.explicit_contract = true)
    ∧ (∀ c a1 a2 e p, pe_sink_select_cap c a1 a2 e = some p →
        p.1.explicit_contract = true → c.explicit_contract = true)
    ∧ (∀ c arr e gb p, pe_sink_ready c arr e gb = some p →
        p.1.explicit_contract = true → c.explicit_contract = true)
    ∧ (∀ c arr p, pe_sink_get_source_cap c arr = some p →
        p.1.explicit_contract = true → c.explicit_contract = true)
    ∧ (∀ c arr m p, pe_sink_give_sink_cap c arr m = some p →
        p.1.explicit_contract = true → c.explicit_contract = true)
    ∧ (∀ c arr p, pe_sink_hard_reset c arr = some p →
        p.1.explicit_contract = true → c.explicit_contract = true)
    ∧ (∀ c, (pe_sink_transition_default c).1.explicit_contract = true →
        c.explicit_contract = true)
    ∧ (∀ c arr p, pe_sink_soft_reset c arr = some p →
        p.1.explicit_contract = true → c.explicit_contract = true)
    ∧ (∀ c a1 a2 e p, pe_sink_send_soft_reset c a1 a2 e = some p →
        p.1.explicit_contract = true → c.explicit_contract = true)
    ∧ (∀ c arr p, pe_sink_send_not_supported c arr = some p →
        p.1.explicit_contract = true → c.explicit_contract = true)
    ∧ (∀ c arr e p, pe_sink_chunk_received c arr e = some p →
        p.1.explicit_contract = true → c.explicit_contract = true)
    ∧ (∀ c, (pe_sink_not_supported_received c).1.explicit_contract = true →
        c.explicit_contract = true)
    ∧ (∀ c b t, (pe_sink_source_unresponsive c b t).1.explicit_contract = true →
        c.explicit_contract = true) :=
  ⟨by decide, c7aux_transition_sink, c7aux_startup, c7aux_discovery, c7aux_wait_cap,
    c7aux_eval_cap, c7aux_select_cap, c7aux_ready, c7aux_get_source_cap,
    c7aux_give_sink_cap, c7aux_hard_reset, c7aux_transition_default, c7aux_soft_reset,
    c7aux_send_soft_reset, c7aux_send_not_supported, c7aux_chunk_received,
    c7aux_not_supported_received, c7aux_source_unresponsive⟩

/-- TransitionSink input for C7's witness: a PS_RDY queued, `PE_MSG_RX` set. -/
def c7_wm : PeCtx :=
  { pe_mailbox := [({ msgtype := .psRdy } : Msg)], pe_events := PDB_EVT_PE_MSG_RX }

/-- Result of `pe_sink_transition_sink` at `c7_wm`. -/
def c7_wp : PeCtx × PEState := ({ explicit_contract := true, freed := 1 }, .Ready)

/-- C7, witnessed: the only flag-setting routine, applied at `c7_wm`, indeed
fetched a PS_RDY with zero data objects. -/
theorem c7_request_accept_psrdy_roundtrip_witness :
    c7_wm.pe_mailbox.head?.map (fun m => (m.msgtype, m.numobj)) = some (MType.psRdy, 0) :=
  c7_request_accept_psrdy_roundtrip.2.1 c7_wm 0 false c7_wp (by decide) rfl rfl

/-- C8: in the PE HardReset state, a counter above `PD_N_HARD_RESET_COUNT`
leads to SourceUnresponsive with no further `HARDRST_RESET` signal (the
context is returned untouched); otherwise the state signals
`HARDRST_RESET`, awaits `PE_HARD_SENT`, increments the counter and moves
to TransitionDefault.  Consequently, when the source never responds — every
`PD_T_TYPEC_SINK_WAIT_CAP` wait in WaitCap expires with an empty mailbox,
and the Hard Reset machine answers each `HARDRST_RESET` with
`PE_RESET | PE_HARD_SENT` — the PE run from Startup reaches
SourceUnresponsive after `PD_N_HARD_RESET_COUNT + 1 = 3` hard resets
(the final counter value is 3). -/
theorem c8_hard_reset_exhaustion :
    (∀ c arr, c.hard_reset_counter > PD_N_HARD_RESET_COUNT →
      pe_sink_hard_reset c arr = some (c, PEState.SourceUnresponsive))
    ∧ (∀ c arr p, c.hard_reset_counter ≤ PD_N_HARD_RESET_COUNT →
        pe_sink_hard_reset c arr = some p →
        p.1.hard_reset_counter = c.hard_reset_counter + 1
        ∧ p.1.hardrst_events = c.hardrst_events ||| PDB_EVT_HARDRST_RESET
        ∧ p.2 = PEState.TransitionDefault)
    ∧ (pe_silent_run 19 (({} : PeCtx), PEState.Startup)).map
        (fun p => (p.2, p.1.hard_reset_counter))
        = some (PEState.SourceUnresponsive, 3)
    ∧ (3 : Int) = PD_N_HARD_RESET_COUNT + 1 := by
  refine ⟨?_, ?_, by decide, by decide⟩
  · intro c arr hgt
    simp only [pe_sink_hard_reset, if_pos hgt]
  · intro c arr p hle h
    simp only [pe_sink_hard_reset] at h
    rw [if_neg (by omega)] at h
    repeat' split at h
    all_goals try injection h with h
    all_goals try cases h
    all_goals simp_all

/-- The HardReset-state input for C8's witness: the counter is already
past `PD_N_HARD_RESET_COUNT`. -/
def c8_hi : PeCtx := { hard_reset_counter := 3 }

/-- C8, witnessed at `c8_hi`: the PE goes to SourceUnresponsive without
signaling. -/
theorem c8_hard_reset_exhaustion_witness :
    pe_sink_hard_reset c8_hi 0 = some (c8_hi, PEState.SourceUnresponsive) :=
  c8_hard_reset_exhaustion.1 c8_hi 0 (by decide)

/-- C9: in `pe_sink_transition_sink`, the `PE_RESET` branch sets
`*res = PESinkTransitionDefault` without exiting, and execution continues:
whenever the wait completes and no message can be fetched from the PE
mailbox the assignment is overwritten and the resulting next state is
HardReset; the returned state is TransitionDefault only if a message was
fetchable (vacuously — every continuing path overwrites the assignment, so
TransitionDefault is never the result of this state). -/
theorem c9_transition_sink_reset_overwritten (c : PeCtx) (arr : Nat) (expired : Bool)
    (p : PeCtx × PEState) (h : pe_sink_transition_sink c arr expired = some p) :
    (c.pe_mailbox = [] → p.2 = PEState.HardReset)
    ∧ p.2 ≠ PEState.TransitionDefault := by
  simp only [pe_sink_transition_sink] at h
  repeat' split at h
  all_goals try injection h with h
  all_goals try cases h
  all_goals simp_all

/-- The TransitionSink input for C9's witness: `PE_RESET` pending (so the
reset branch is the one the claim describes), empty mailbox. -/
def c9_pre : PeCtx := { pe_events := PDB_EVT_PE_RESET }

/-- C9, witnessed at `c9_pre`: the result is HardReset, not
TransitionDefault. -/
theorem c9_transition_sink_reset_overwritten_witness :
    (c9_pre.pe_mailbox = [] → (({} : PeCtx), PEState.HardReset).2 = PEState.HardReset)
    ∧ (({} : PeCtx), PEState.HardReset).2 ≠ PEState.TransitionDefault :=
  c9_transition_sink_reset_overwritten c9_pre 0 true
    (({} : PeCtx), PEState.HardReset) (by decide)

/-- Unsigned `w - r` collapses to natural subtraction while the write index
has not wrapped. -/
theorem pt_queue_cap_eq {T : Type} (q : PtQueue T) (hr : q.r ≤ q.w) (hw : q.w < UINT32) :
    pt_queue_cap q = q.w - q.r := by
  unfold pt_queue_cap
  have h1 : q.w + UINT32 - q.r = (q.w - q.r) + UINT32 := by omega
  rw [h1, Nat.add_mod_right, Nat.mod_eq_of_lt (by omega)]

/-- Two ring slots whose logical positions differ by less than the buffer
length are distinct. -/
theorem pt_queue_index_ne (L r i j : Nat) (hij : i < j) (hjL : j - i < L) :
    (r + i) % L ≠ (r + j) % L := by
  intro hEq
  have hdvd : L ∣ (r + j) - (r + i) := (Nat.modEq_iff_dvd' (by omega)).mp hEq
  have h2 : (r + j) - (r + i) = j - i := by omega
  rw [h2] at hdvd
  have := Nat.le_of_dvd (by omega) hdvd
  omega

/-- While the indices have not wrapped, the abstraction enumerates the ring
slots `r, r+1, …, w-1`. -/
theorem pt_queue_list_eq {T : Type} (q : PtQueue T) (hr : q.r ≤ q.w) (hw : q.w < UINT32) :
    pt_queue_list q
      = (List.range (q.w - q.r)).map (fun i => q.buf[(q.r + i) % q.buf.length]?) := by
  unfold pt_queue_list pt_queue_len
  rw [pt_queue_cap_eq q hr hw]
  apply List.map_congr_left
  intro i hi
  have hi' : i < q.w - q.r := List.mem_range.mp hi
  rw [Nat.mod_eq_of_lt (show q.r + i < UINT32 by omega)]

/-- C10: for every `pt_queue`, a pop on an empty queue (read index equal to
write index) returns NULL and leaves the queue unchanged; a push on a full
queue returns 0 and leaves buffer and indices unchanged (short-circuit
before the store); otherwise — while the unsigned indices have not wrapped
— push appends its element to the stored sequence and pop removes exactly
the head of the stored sequence, so elements are popped in the order they
were pushed (FIFO). -/
theorem c10_pt_queue_fifo {T : Type} (q : PtQueue T) (el : T) :
    (q.w = q.r → pt_queue_pop q = (none, q))
    ∧ (pt_queue_full q = true → pt_queue_push q el = (false, q))
    ∧ (q.r ≤ q.w → q.w + 1 < UINT32 → pt_queue_cap q ≤ pt_queue_len q →
        pt_queue_full q = false →
        (pt_queue_push q el).1 = true
        ∧ pt_queue_list (pt_queue_push q el).2 = pt_queue_list q ++ [some el])
    ∧ (q.r ≤ q.w → q.w < UINT32 → pt_queue_empty q = false →
        pt_queue_list q = (pt_queue_pop q).1 :: pt_queue_list (pt_queue_pop q).2) := by
  refine ⟨?_, ?_, ?_, ?_⟩
  · intro h
    simp [pt_queue_pop, pt_queue_empty, h]
  · intro h
    simp [pt_queue_push, h]
  · intro hr hw hcap hnf
    have hwU : q.w < UINT32 := by omega
    have hceq := pt_queue_cap_eq q hr hwU
    have hlt : q.w - q.r < pt_queue_len q := by
      rcases Nat.lt_or_ge (q.w - q.r) (pt_queue_len q) with h | h
      · exact h
      · exfalso
        have hfull : pt_queue_cap q = pt_queue_len q := by omega
        simp [pt_queue_full, hfull] at hnf
    have hL : 0 < pt_queue_len q := by omega
    refine ⟨by simp [pt_queue_push, hnf], ?_⟩
    have hL' : q.w - q.r < q.buf.length := hlt
    have hq2 : (pt_queue_push q el).2
        = ⟨q.buf.set (q.w % q.buf.length) el, q.r, q.w + 1⟩ := by
      simp [pt_queue_push, pt_queue_len, hnf, Nat.mod_eq_of_lt hw]
    rw [hq2, pt_queue_list_eq ⟨q.buf.set (q.w % q.buf.length) el, q.r, q.w + 1⟩
          (by simpa using by omega) (by simpa using hw),
        pt_queue_list_eq q hr hwU]
    have hn : q.w + 1 - q.r = (q.w - q.r) + 1 := by omega
    simp only [hn, List.range_succ, List.map_append, List.map_cons, List.map_nil]
    congr 1
    · apply List.map_congr_left
      intro i hi
      have hi' : i < q.w - q.r := List.mem_range.mp hi
      simp only [List.length_set]
      apply List.getElem?_set_ne
      have hww : q.w = q.r + (q.w - q.r) := by omega
      rw [hww]
      exact (pt_queue_index_ne q.buf.length q.r i (q.w - q.r) hi' (by omega)).symm
    · have hrw : q.r + (q.w - q.r) = q.w := by omega
      simp only [List.length_set, hrw]
      rw [List.getElem?_set_self (Nat.mod_lt _ (show 0 < q.buf.length from hL))]
  · intro hr hw hne
    have hrw : q.r < q.w := by
      simp [pt_queue_empty] at hne
      omega
    have hpop1 : (pt_queue_pop q).1 = q.buf[q.r % pt_queue_len q]? := by
      simp [pt_queue_pop, pt_queue_empty, show ¬ q.w = q.r by omega]
    have hpop2 : (pt_queue_pop q).2 = ⟨q.buf, q.r + 1, q.w⟩ := by
      simp [pt_queue_pop, pt_queue_empty, show ¬ q.w = q.r by omega,
        Nat.mod_eq_of_lt (show q.r + 1 < UINT32 by omega)]
    rw [pt_queue_list_eq q hr hw, hpop1, hpop2,
        pt_queue_list_eq ⟨q.buf, q.r + 1, q.w⟩ (by simpa using by omega) (by simpa using hw)]
    have hn : q.w - q.r = (q.w - (q.r + 1)) + 1 := by omega
    rw [hn, List.range_succ_eq_map, List.map_cons, List.map_map]
    dsimp only
    congr 1
    apply List.map_congr_left
    intro a ha
    simp only [Function.comp_apply]
    have hx : q.r + (a + 1) = q.r + 1 + a := by omega
    rw [hx]

/-- A three-slot queue holding nothing, for C10's witness. -/
def c10_q : PtQueue Nat := ⟨[0, 0, 0], 0, 0⟩

/-- C10, witnessed at `c10_q`: pushing 5 succeeds and appends 5. -/
theorem c10_pt_queue_fifo_witness :
    (pt_queue_push c10_q 5).1 = true
    ∧ pt_queue_list (pt_queue_push c10_q 5).2 = pt_queue_list c10_q ++ [some 5] :=
  (c10_pt_queue_fifo c10_q 5).2.2.1 (by decide) (by decide) (by decide) (by decide)
